import Mathlib

set_option maxHeartbeats 1000000

/- Shallow embedding of the SnowRail backend core: x402 proof validation
   (backend/src/x402/validator.ts), the metered-gateway middleware, the
   internal confirmation-callback route (backend/src/api/internalRoutes.ts),
   the treasury client wrapper (backend/src/services/treasuryClient.ts), and
   the payroll settlement aggregate and its status state machine. -/

/-- A meter entry of the 8004 metering catalog (backend/src/x402/metering.ts,
quoted verbatim in the repository README). -/
structure Meter where
  price : String
  asset : String
  chain : String
  resource : String
  description : Option String
  version : String
  deriving DecidableEq, Repr

/-- Configuration surface read by the validator (config.x402FacilitatorUrl in
backend/src/config/env.ts). -/
structure X402Config where
  x402FacilitatorUrl : String
  deriving DecidableEq, Repr

/-- Whether the second character list occurs at the very start of the first. -/
def charsStartWith : List Char → List Char → Bool
  | _, [] => true
  | [], _ :: _ => false
  | a :: as, b :: bs => a == b && charsStartWith as bs

/-- Whether the second character list occurs anywhere inside the first. -/
def charsContain : List Char → List Char → Bool
  | [], needle => needle.isEmpty
  | a :: as, needle => charsStartWith (a :: as) needle || charsContain as needle

/-- JS String.prototype.includes: substring containment, over the character
lists of the two strings. -/
def stringIncludes (s needle : String) : Bool :=
  charsContain s.toList needle.toList

/-- Result shape returned by validateWithFacilitator
(backend/src/x402/facilitatorClient.ts): valid, payer, amount, error. -/
structure FacilitatorResult where
  valid : Bool
  payer : Option String
  amount : Option String
  error : Option String
  deriving DecidableEq, Repr

/-- Environment of the validator: the configuration, the meter-catalog lookup
(getMeter), and the facilitator call. The facilitator call is fallible:
Except.error is a thrown exception carrying its message, Except.ok is a
received response. -/
structure ValidatorEnv where
  config : X402Config
  getMeter : String → Option Meter
  validateWithFacilitator : String → String → Meter → Except String FacilitatorResult

/-- validateXPaymentHeader from backend/src/x402/validator.ts: a demo-token
short-circuit when the facilitator URL contains "mock"; otherwise a meter
lookup (false when missing) and facilitator validation, wrapped in a catch
branch that accepts demo-token whenever the facilitator call throws and
rejects everything else. -/
def validateXPaymentHeader (env : ValidatorEnv) (headerValue meterId : String) : Bool :=
  if headerValue == "demo-token" && stringIncludes env.config.x402FacilitatorUrl "mock" then
    true
  else
    match env.getMeter meterId with
    | none => false
    | some meter =>
      match env.validateWithFacilitator headerValue meterId meter with
      | Except.ok result => result.valid
      | Except.error _ => headerValue == "demo-token"

/-- ValidationResult from backend/src/x402/validator.ts (the untyped
facilitatorResponse passthrough field is not modelled; no claim touches it). -/
structure ValidationResult where
  valid : Bool
  error : Option String := none
  payer : Option String := none
  amount : Option String := none
  deriving DecidableEq, Repr

/-- validatePaymentDetailed from backend/src/x402/validator.ts: the same
decision paths as validateXPaymentHeader, returning the detailed result,
including the catch-branch fallback that reports demo-token as valid with the
synthetic payer whenever the facilitator call throws. -/
def validatePaymentDetailed (env : ValidatorEnv) (headerValue meterId : String) : ValidationResult :=
  if headerValue == "demo-token" && stringIncludes env.config.x402FacilitatorUrl "mock" then
    { valid := true, payer := some "0xDemoPayerAddress", amount := some "1" }
  else
    match env.getMeter meterId with
    | none => { valid := false, error := some "METER_NOT_FOUND" }
    | some meter =>
      match env.validateWithFacilitator headerValue meterId meter with
      | Except.ok result =>
        { valid := result.valid, payer := result.payer, amount := result.amount,
          error := result.error }
      | Except.error msg =>
        if headerValue == "demo-token" then
          { valid := true, payer := some "0xDemoPayerAddress", amount := some "1" }
        else
          { valid := false, error := some msg }

/-- The payroll_execute meter, as quoted from backend/src/x402/metering.ts in
the README. -/
def payrollExecuteMeter : Meter :=
  { price := "1", asset := "USDC", chain := "avalanche", resource := "payroll_execution",
    description := some "Execute international payroll for up to 10 freelancers",
    version := "8004-alpha" }

/-- Modelled from the spec: the meter catalog lookup get(resourceId) of
backend/src/x402/metering.ts, which is not under src; its single
payroll_execute entry is quoted in the README. -/
def getMeter (meterId : String) : Option Meter :=
  if meterId == "payroll_execute" then some payrollExecuteMeter else none

/-- Outcome produced by the x402Protect middleware: a priced challenge
response carrying the protocol status, or the downstream result forwarded. -/
inductive GatewayOutcome (α : Type) where
  | challenge (status : Nat) (error : String) (meterId : String) (metering : Option Meter)
  | forwarded (value : α)
  deriving DecidableEq, Repr

/-- Modelled from the spec: x402Protect of backend/src/x402/middleware.ts,
which is not under src. Given a meter id, the optional X-PAYMENT header
value, the proof validator, and the protected downstream handler acting on a
state, the middleware either short-circuits with a 402 PAYMENT_REQUIRED
challenge carrying the meter id and its metering data, leaving the state
untouched and never invoking the handler, or forwards the call on successful
validation. -/
def x402Protect {σ α : Type} (meterId : String) (xPayment : Option String)
    (validate : String → String → Bool)
    (downstream : σ → σ × α) (s : σ) : σ × GatewayOutcome α :=
  match xPayment with
  | none => (s, GatewayOutcome.challenge 402 "PAYMENT_REQUIRED" meterId (getMeter meterId))
  | some proof =>
    if validate proof meterId then
      let r := downstream s
      (r.1, GatewayOutcome.forwarded r.2)
    else
      (s, GatewayOutcome.challenge 402 "PAYMENT_REQUIRED" meterId (getMeter meterId))

/-- Status of an inbound Payment row. Prisma stores free-form strings; these
are the values the reconciler distinguishes per the spec. -/
inductive PaymentStatus where
  | pending
  | confirmedOnchain
  | failed
  deriving DecidableEq, Repr

/-- A Payment row (inbound/merchant flow) of the Prisma schema. -/
structure Payment where
  companyId : String
  paymentIntentId : String
  token : String
  amountToken : Int
  amountUsd : Int
  status : PaymentStatus
  txHash : Option String
  deriving DecidableEq, Repr

/-- A CompanyBalance row of the Prisma schema, unique per (companyId, token). -/
structure CompanyBalance where
  companyId : String
  token : String
  balanceToken : Int
  balanceUsd : Int
  deriving DecidableEq, Repr

/-- The relational store the reconciler reads and writes. -/
structure Store where
  payments : List Payment
  balances : List CompanyBalance
  deriving DecidableEq, Repr

/-- Error outcomes of confirmPayment, as distinguished by the catch branches
of backend/src/api/internalRoutes.ts through thrown Error messages that
contain "not found", "already confirmed" and "invalid status". -/
inductive ConfirmError where
  | notFound
  | alreadyConfirmed
  | invalidStatus
  deriving DecidableEq, Repr

/-- Success payload of confirmPayment, as consumed by the route. -/
structure ConfirmOk where
  companyId : String
  status : PaymentStatus
  txHash : String
  deriving DecidableEq, Repr

/-- Lookup of a Payment by its unique paymentIntentId idempotency key. -/
def findPayment (s : Store) (paymentIntentId : String) : Option Payment :=
  s.payments.find? (fun p => p.paymentIntentId == paymentIntentId)

/-- Row update marking the payment of the given intent CONFIRMED_ONCHAIN with
the given transaction hash. -/
def markConfirmed (paymentIntentId txHash : String) (p : Payment) : Payment :=
  if p.paymentIntentId == paymentIntentId then
    { p with status := PaymentStatus.confirmedOnchain, txHash := some txHash }
  else p

/-- The unique-index key of a CompanyBalance row. -/
def balanceKeyMatches (companyId token : String) (b : CompanyBalance) : Bool :=
  b.companyId == companyId && b.token == token

/-- Atomic increment of a balance row: addition, never an overwrite. -/
def addToBalance (dTok dUsd : Int) (b : CompanyBalance) : CompanyBalance :=
  { b with balanceToken := b.balanceToken + dTok, balanceUsd := b.balanceUsd + dUsd }

/-- Prisma-style upsert on the unique (companyId, token) index: increment the
matching row when one exists, create it with the increments otherwise. -/
def upsertBalance (bs : List CompanyBalance) (companyId token : String) (dTok dUsd : Int) :
    List CompanyBalance :=
  match bs with
  | [] => [{ companyId := companyId, token := token, balanceToken := dTok, balanceUsd := dUsd }]
  | b :: rest =>
    if balanceKeyMatches companyId token b then
      addToBalance dTok dUsd b :: rest
    else
      b :: upsertBalance rest companyId token dTok dUsd

/-- Modelled from the spec: confirmPayment of
backend/src/services/paymentIntentService.ts, which is not under src (only
its caller internalRoutes.ts is). Per the Payment Intent Reconciler section
of the spec: lookup by paymentIntentId, a not-found error when absent; an
already-confirmed payment is reported as such with no balance mutation; an
illegal prior status (FAILED) is an invalid-status error; otherwise the
Payment is atomically marked CONFIRMED_ONCHAIN with the given txHash and
CompanyBalance for (companyId, token) is upserted by adding the payment
amounts rather than overwriting. Error outcomes are Except.error values that
the in-src route maps from thrown Error messages. -/
def confirmPayment (s : Store) (paymentIntentId txHash : String) (amount : Int) (token : String) :
    Store × Except ConfirmError ConfirmOk :=
  match findPayment s paymentIntentId with
  | none => (s, Except.error ConfirmError.notFound)
  | some p =>
    match p.status with
    | PaymentStatus.confirmedOnchain => (s, Except.error ConfirmError.alreadyConfirmed)
    | PaymentStatus.failed => (s, Except.error ConfirmError.invalidStatus)
    | PaymentStatus.pending =>
      ({ payments := s.payments.map (markConfirmed paymentIntentId txHash),
         balances := upsertBalance s.balances p.companyId p.token p.amountToken p.amountUsd },
       Except.ok { companyId := p.companyId, status := PaymentStatus.confirmedOnchain,
                   txHash := txHash })

/-- An incoming POST /internal/x402/callback request: the optional
X-Callback-Secret header and the JSON body fields, each possibly absent
(undefined in JS). -/
structure CallbackRequest where
  headerSecret : Option String
  paymentIntentId : Option String
  token : Option String
  amount : Option Int
  txHash : Option String
  deriving DecidableEq, Repr

/-- The process environment the route reads: X402_CALLBACK_SECRET. -/
structure CallbackEnv where
  callbackSecret : Option String
  deriving DecidableEq, Repr

/-- JS truthiness of a possibly-absent string: undefined and the empty string
are falsy. -/
def truthyStr : Option String → Bool
  | none => false
  | some s => s != ""

/-- JS truthiness of a possibly-absent number: undefined and zero are falsy. -/
def truthyNum : Option Int → Bool
  | none => false
  | some n => n != 0

/-- validateCallbackSecret from backend/src/api/internalRoutes.ts: a missing
or empty configured secret allows every request (development mode); otherwise
the provided X-Callback-Secret header must equal the configured secret. -/
def validateCallbackSecret (env : CallbackEnv) (headerSecret : Option String) : Bool :=
  match env.callbackSecret with
  | none => true
  | some secret =>
    if secret == "" then true
    else headerSecret == some secret

/-- The JSON body and status the callback route responds with; fields the
route leaves out of a given response default to none or false. -/
structure CallbackResponse where
  status : Nat
  ok : Bool
  error : Option String := none
  message : Option String := none
  companyId : Option String := none
  paymentIntentId : Option String := none
  paymentStatus : Option PaymentStatus := none
  txHash : Option String := none
  balanceUpdated : Bool := false
  deriving DecidableEq, Repr

/-- The POST /internal/x402/callback handler of
backend/src/api/internalRoutes.ts, parameterized by the confirm-payment
service it invokes: the secret check, then the required-field check (JS
truthiness, so a zero amount counts as missing), then the confirm call whose
error outcomes are mapped to 404 PAYMENT_INTENT_NOT_FOUND, 200
already-confirmed and 400 INVALID_STATUS exactly as the catch branches of the
route do. -/
def handleCallbackWith
    (confirm : Store → String → String → Int → String → Store × Except ConfirmError ConfirmOk)
    (env : CallbackEnv) (s : Store) (req : CallbackRequest) : Store × CallbackResponse :=
  if !validateCallbackSecret env req.headerSecret then
    (s, { status := 401, ok := false, error := some "UNAUTHORIZED",
          message := some "Invalid callback secret" })
  else if !(truthyStr req.paymentIntentId && truthyStr req.token &&
      truthyNum req.amount && truthyStr req.txHash) then
    (s, { status := 400, ok := false, error := some "INVALID_REQUEST",
          message := some "paymentIntentId, token, amount, and txHash are required" })
  else
    match confirm s (req.paymentIntentId.getD "") (req.txHash.getD "")
        (req.amount.getD 0) (req.token.getD "") with
    | (s2, Except.ok r) =>
      (s2, { status := 200, ok := true,
             message := some "Payment confirmed and balance updated",
             companyId := some r.companyId,
             paymentIntentId := some (req.paymentIntentId.getD ""),
             paymentStatus := some r.status, txHash := some r.txHash,
             balanceUpdated := true })
    | (s2, Except.error ConfirmError.notFound) =>
      (s2, { status := 404, ok := false, error := some "PAYMENT_INTENT_NOT_FOUND" })
    | (s2, Except.error ConfirmError.alreadyConfirmed) =>
      (s2, { status := 200, ok := true,
             message := some "Payment already confirmed (idempotent)" })
    | (s2, Except.error ConfirmError.invalidStatus) =>
      (s2, { status := 400, ok := false, error := some "INVALID_STATUS" })

/-- The callback route as registered: the handler applied to the real
confirm-payment service. -/
def handleCallback : CallbackEnv → Store → CallbackRequest → Store × CallbackResponse :=
  handleCallbackWith confirmPayment

/-- Two successive deliveries of the same callback, the second on the store
left by the first. -/
def callbackTwice (env : CallbackEnv) (s : Store) (req : CallbackRequest) :
    (Store × CallbackResponse) × (Store × CallbackResponse) :=
  (handleCallback env s req, handleCallback env (handleCallback env s req).1 req)

/-- The balance-token amount recorded for (companyId, token), zero when the
row does not exist yet. -/
def lookupBalanceToken (bs : List CompanyBalance) (companyId token : String) : Int :=
  match bs.find? (balanceKeyMatches companyId token) with
  | some b => b.balanceToken
  | none => 0

/-- Balance read on the whole store. -/
def getBalanceToken (s : Store) (companyId token : String) : Int :=
  lookupBalanceToken s.balances companyId token

/-- Treasury call errors: either the raw error propagated unchanged from the
underlying ethers call (a revert or a network failure surfaces as-is), or the
dedicated OnchainFailure classification the spec describes. The embedded
client below only ever produces the former. -/
inductive TreasuryError where
  | generic (msg : String)
  | onchainFailure (reason : String)
  deriving DecidableEq, Repr

/-- The underlying SnowRailTreasury contract handle obtained from
contractConfig: each call either yields the mined receipt hash (request and
execute, after tx.wait) or the token balance, or throws with a raw message. -/
structure TreasuryContract where
  requestPayment : String → Int → String → Except String String
  executePayment : String → String → Int → String → Except String String
  getTokenBalance : String → Except String Int

/-- requestOnchainPayment from backend/src/services/treasuryClient.ts: calls
contract.requestPayment, awaits the receipt and returns its hash. The source
has no try/catch, so an underlying failure propagates unchanged as the raw
(generic) error. -/
def requestOnchainPayment (c : TreasuryContract) (payee : String) (amount : Int)
    (token : String) : Except TreasuryError String :=
  match c.requestPayment payee amount token with
  | Except.ok hash => Except.ok hash
  | Except.error msg => Except.error (TreasuryError.generic msg)

/-- executeOnchainPayment from backend/src/services/treasuryClient.ts; same
propagation of underlying failures as requestOnchainPayment. -/
def executeOnchainPayment (c : TreasuryContract) (payer payee : String) (amount : Int)
    (token : String) : Except TreasuryError String :=
  match c.executePayment payer payee amount token with
  | Except.ok hash => Except.ok hash
  | Except.error msg => Except.error (TreasuryError.generic msg)

/-- getTreasuryBalance from backend/src/services/treasuryClient.ts (read-only
contract call); same propagation of underlying failures. -/
def getTreasuryBalance (c : TreasuryContract) (token : String) : Except TreasuryError Int :=
  match c.getTokenBalance token with
  | Except.ok b => Except.ok b
  | Except.error msg => Except.error (TreasuryError.generic msg)

/-- Whether a treasury call outcome is an error of the distinguishable
OnchainFailure class. -/
def errIsOnchainFailure {α : Type} : Except TreasuryError α → Bool
  | Except.error (TreasuryError.onchainFailure _) => true
  | _ => false

/-- A treasury contract handle whose calls fail: the request and balance
calls find the network unreachable and the execute call reverts. -/
def brokenContract : TreasuryContract :=
  { requestPayment := fun _ _ _ => Except.error "network unreachable",
    executePayment := fun _ _ _ _ => Except.error "execution reverted",
    getTokenBalance := fun _ => Except.error "network unreachable" }

/-- Payroll lifecycle states from the README status lifecycle and the Prisma
schema defaults. -/
inductive PayrollStatus where
  | pending
  | onchainPaid
  | railProcessing
  | paid
  | failed
  deriving DecidableEq, Repr, Fintype

/-- A Payroll row of the Prisma schema (the fields the claims touch). -/
structure Payroll where
  id : String
  total : Int
  currency : String
  status : PayrollStatus
  deriving DecidableEq, Repr

/-- An OutboundPayment row of the Prisma schema. -/
structure OutboundPayment where
  id : String
  payrollId : String
  amount : Int
  currency : String
  status : PayrollStatus
  recipient : Option String
  deriving DecidableEq, Repr

/-- The payroll side of the relational store. -/
structure PayrollStore where
  payrolls : List Payroll
  outbound : List OutboundPayment
  deriving DecidableEq, Repr

/-- Modelled from the spec: bulk creation of the OutboundPayment rows of a
new payroll (the payroll service is not under src; only its Prisma schema and
the README describe it), one PENDING row per (recipient, amount) item. -/
def mkOutbound (payrollId currency : String) : List (String × Int) → Nat → List OutboundPayment
  | [], _ => []
  | (recipient, amount) :: rest, i =>
    { id := payrollId ++ "-" ++ toString i, payrollId := payrollId, amount := amount,
      currency := currency, status := PayrollStatus.pending, recipient := some recipient }
      :: mkOutbound payrollId currency rest (i + 1)

/-- Sum of the amounts of a recipient batch. -/
def sumAmounts (items : List (String × Int)) : Int :=
  (items.map Prod.snd).sum

/-- Modelled from the spec: payroll creation — one Payroll with status
PENDING and total equal to the sum of the batch amounts, written atomically
together with its OutboundPayments. -/
def createPayroll (st : PayrollStore) (payrollId currency : String)
    (items : List (String × Int)) : PayrollStore :=
  { payrolls := st.payrolls ++
      [{ id := payrollId, total := sumAmounts items, currency := currency,
         status := PayrollStatus.pending }],
    outbound := st.outbound ++ mkOutbound payrollId currency items 0 }

/-- Modelled from the spec: the only post-creation mutation the orchestrator
performs on the aggregate is a status update (individual payment statuses
mirror the parent); total and amount are never touched. -/
def setPayrollStatus (st : PayrollStore) (payrollId : String) (newStatus : PayrollStatus) :
    PayrollStore :=
  { payrolls := st.payrolls.map
      (fun p => if p.id == payrollId then { p with status := newStatus } else p),
    outbound := st.outbound.map
      (fun o => if o.payrollId == payrollId then { o with status := newStatus } else o) }

/-- The sum of the amounts of the OutboundPayments referencing a payroll. -/
def outboundTotal (st : PayrollStore) (payrollId : String) : Int :=
  ((st.outbound.filter (fun o => o.payrollId == payrollId)).map OutboundPayment.amount).sum

/-- The aggregate invariant: every Payroll total equals the sum of the
amounts of the OutboundPayments whose payrollId references it. -/
def payrollTotalsOk (st : PayrollStore) : Bool :=
  st.payrolls.all (fun p => p.total == outboundTotal st p.id)

/-- Modelled from the spec: the payroll status transition relation of the
orchestrator state machine — PENDING to ONCHAIN_PAID to RAIL_PROCESSING to
PAID, with FAILED reachable from any non-terminal state; PAID and FAILED
admit no outgoing transition. -/
def canTransition : PayrollStatus → PayrollStatus → Bool
  | PayrollStatus.pending, PayrollStatus.onchainPaid => true
  | PayrollStatus.onchainPaid, PayrollStatus.railProcessing => true
  | PayrollStatus.railProcessing, PayrollStatus.paid => true
  | PayrollStatus.pending, PayrollStatus.failed => true
  | PayrollStatus.onchainPaid, PayrollStatus.failed => true
  | PayrollStatus.railProcessing, PayrollStatus.failed => true
  | _, _ => false

/-- Validity of the tail of an observed status sequence continuing from the
status a: each consecutive pair is a legal transition. -/
def chainFrom (a : PayrollStatus) : List PayrollStatus → Bool
  | [] => true
  | b :: rest => canTransition a b && chainFrom b rest

/-- An observed status trace of one Payroll, ordered by time: it begins at
PENDING (the creation status) and each consecutive pair of observations is a
legal transition. -/
def validTrace : List PayrollStatus → Bool
  | [] => false
  | a :: rest => a == PayrollStatus.pending && chainFrom a rest

/-- The full forward chain of the lifecycle. -/
def fullChain : List PayrollStatus :=
  [PayrollStatus.pending, PayrollStatus.onchainPaid, PayrollStatus.railProcessing,
   PayrollStatus.paid]

/-- Forward progress measure on statuses; FAILED sits above every
non-terminal state since it is reachable from each of them. -/
def statusRank : PayrollStatus → Nat
  | PayrollStatus.pending => 0
  | PayrollStatus.onchainPaid => 1
  | PayrollStatus.railProcessing => 2
  | PayrollStatus.paid => 3
  | PayrollStatus.failed => 4

/-- One settlement step of the orchestrator: a name and a fallible state
transformation (Except.error is the thrown step exception). -/
structure StepDef (σ : Type) where
  name : String
  run : σ → Except String σ

/-- A recorded per-step failure, as carried in the errors list of the
response (the PaymentResult shape of the frontend). -/
structure StepError where
  step : String
  error : String
  deriving DecidableEq, Repr

/-- The success-shaped response of an orchestrator run: the final persisted
state, the aggregate status, the steps completed, and the recorded errors. -/
structure OrchestratorResult (σ : Type) where
  state : σ
  status : PayrollStatus
  completed : List String
  errors : List StepError
  deriving DecidableEq, Repr

/-- Modelled from the spec: the Payroll Orchestrator drives the settlement
steps in order; a step exception stops the run, persists status FAILED and
appends the single step-and-error record to the errors list of the
success-shaped response (the run itself never raises — its result type is
total), while the state changes of prior successful steps are kept, never
rolled back. When every step succeeds the run ends PAID with no errors. -/
def runSteps {σ : Type} : List (StepDef σ) → σ → List String → OrchestratorResult σ
  | [], s, done => { state := s, status := PayrollStatus.paid, completed := done, errors := [] }
  | st :: rest, s, done =>
    match st.run s with
    | Except.ok s2 => runSteps rest s2 (done ++ [st.name])
    | Except.error e =>
      { state := s, status := PayrollStatus.failed, completed := done,
        errors := [{ step := st.name, error := e }] }

/-- Pure sequencing of the effects of a list of steps, used to speak about
the state reached after a run of successful steps. -/
def runAll {σ : Type} : List (StepDef σ) → σ → Except String σ
  | [], s => Except.ok s
  | st :: rest, s =>
    match st.run s with
    | Except.ok s2 => runAll rest s2
    | Except.error e => Except.error e

/-- A validator environment with a production-flagged (non-mock) facilitator
URL whose facilitator call throws (service unreachable). -/
def c1ProdEnv : ValidatorEnv :=
  { config := { x402FacilitatorUrl := "https://x402.ultravioleta.example/prod" },
    getMeter := getMeter,
    validateWithFacilitator := fun _ _ _ => Except.error "facilitator unreachable" }

/-- Callback environment with no configured shared secret. -/
def envNoSecret : CallbackEnv := { callbackSecret := none }

/-- Callback environment with a configured shared secret. -/
def envWithSecret : CallbackEnv := { callbackSecret := some "s3cret" }

/-- A pending inbound payment fixture. -/
def paymentFixture : Payment :=
  { companyId := "co-1", paymentIntentId := "pi-1", token := "USDC",
    amountToken := 25, amountUsd := 25, status := PaymentStatus.pending, txHash := none }

/-- A store holding the pending payment fixture and no balances. -/
def storeFixture : Store := { payments := [paymentFixture], balances := [] }

/-- A well-formed confirmation callback for the payment fixture. -/
def reqFixture : CallbackRequest :=
  { headerSecret := none, paymentIntentId := some "pi-1", token := some "USDC",
    amount := some 25, txHash := some "0xabc" }

/-- The store state confirmPayment writes on the pending path: the payment
row of the intent marked confirmed, and the balance of the payment upserted
by its amounts. -/
def confirmedStore (s : Store) (pid tx : String) (p : Payment) : Store :=
  { payments := s.payments.map (markConfirmed pid tx),
    balances := upsertBalance s.balances p.companyId p.token p.amountToken p.amountUsd }

/-- The callback fixture sent with a wrong shared secret. -/
def reqBadSecret : CallbackRequest := { reqFixture with headerSecret := some "wrong" }

/-- The callback fixture with its amount field absent. -/
def reqMissingAmount : CallbackRequest := { reqFixture with amount := none }

/-- The callback fixture with its amount field present but zero. -/
def reqZeroAmount : CallbackRequest := { reqFixture with amount := some 0 }

/-- The callback fixture referencing an unknown payment intent. -/
def reqUnknown : CallbackRequest := { reqFixture with paymentIntentId := some "pi-unknown" }

/-- The payment fixture already confirmed on-chain. -/
def paymentConfirmedFixture : Payment :=
  { paymentFixture with status := PaymentStatus.confirmedOnchain, txHash := some "0xabc" }

/-- The payment fixture in the illegal FAILED prior status. -/
def paymentFailedFixture : Payment := { paymentFixture with status := PaymentStatus.failed }

/-- A store whose only payment is already confirmed. -/
def storeConfirmed : Store := { payments := [paymentConfirmedFixture], balances := [] }

/-- A store whose only payment is FAILED. -/
def storeFailed : Store := { payments := [paymentFailedFixture], balances := [] }

/-- Concrete settlement step over an integer state: a successful creation
step. -/
def stepOk : StepDef Int :=
  { name := "payroll_created", run := fun n => Except.ok (n + 1) }

/-- Concrete settlement step that throws (the on-chain request fails). -/
def stepFailing : StepDef Int :=
  { name := "onchain_requested", run := fun _ => Except.error "insufficient funds" }

/-- Concrete settlement step after the failing one; never reached. -/
def stepRail : StepDef Int :=
  { name := "rail_processed", run := fun n => Except.ok (n + 10) }

/-- C1: the spec requires the bypass literal to be rejected under a
non-sandbox (production-flagged) configuration on every execution path,
including the path where the facilitator call throws. The code violates
this: with a facilitator URL that does not contain "mock" and a facilitator
call that throws, both validateXPaymentHeader and validatePaymentDetailed
accept "demo-token". -/
theorem c1_demo_token_accepted_in_prod_on_throw :
    stringIncludes c1ProdEnv.config.x402FacilitatorUrl "mock" = false ∧
    validateXPaymentHeader c1ProdEnv "demo-token" "payroll_execute" = true ∧
    (validatePaymentDetailed c1ProdEnv "demo-token" "payroll_execute").valid = true :=
  ⟨rfl, rfl, rfl⟩

/-- C6: a request to a metered operation carrying no payment proof is
answered by the 402 PAYMENT_REQUIRED challenge carrying the meter id and its
metering data, the state is left untouched and the protected downstream
handler is never invoked, whatever it is; and the payroll_execute meter is
the 1 USDC avalanche meter of the catalog. -/
theorem c6_no_proof_gets_challenge {σ α : Type} (meterId : String)
    (validate : String → String → Bool) (downstream : σ → σ × α) (s : σ) :
    x402Protect meterId none validate downstream s
      = (s, GatewayOutcome.challenge 402 "PAYMENT_REQUIRED" meterId (getMeter meterId)) ∧
    getMeter "payroll_execute" = some payrollExecuteMeter ∧
    payrollExecuteMeter.price = "1" ∧ payrollExecuteMeter.asset = "USDC" ∧
    payrollExecuteMeter.chain = "avalanche" :=
  ⟨rfl, rfl, rfl, rfl, rfl⟩

/-- Running the concatenation of a list of successful steps and further steps
continues from the state the successful steps reach, with their names
recorded as completed. -/
theorem runSteps_append_of_runAll {σ : Type} (pre rest : List (StepDef σ)) (s s2 : σ)
    (done : List String) (h : runAll pre s = Except.ok s2) :
    runSteps (pre ++ rest) s done = runSteps rest s2 (done ++ pre.map StepDef.name) := by
  induction pre generalizing s done with
  | nil =>
    simp [runAll] at h
    subst h
    simp
  | cons st tail ih =>
    cases hr : st.run s with
    | ok s3 =>
      simp only [runAll, hr] at h
      simp only [List.cons_append, runSteps, hr, List.map_cons, List.append_eq]
      rw [ih s3 (done ++ [st.name]) h]
      simp [List.append_assoc]
    | error e =>
      simp only [runAll, hr] at h
      simp at h

/-- C7: an exception raised by a settlement step makes the orchestrator
return the success-shaped response (a total value, not a raised error) with
the aggregate persisted as FAILED, exactly the one step-and-error record
appended to the errors list, the prior successful steps recorded as completed
and their state changes kept, never rolled back. -/
theorem c7_step_failure_soft_fails {σ : Type} (pre rest : List (StepDef σ)) (f : StepDef σ)
    (s s2 : σ) (e : String)
    (hpre : runAll pre s = Except.ok s2) (hf : f.run s2 = Except.error e) :
    runSteps (pre ++ f :: rest) s []
      = { state := s2, status := PayrollStatus.failed, completed := pre.map StepDef.name,
          errors := [{ step := f.name, error := e }] } := by
  rw [runSteps_append_of_runAll pre (f :: rest) s s2 [] hpre]
  simp only [runSteps, hf]
  simp

/-- Witness for C7 at concrete steps: the creation step succeeds, the
on-chain step throws, the rail step is never reached. -/
theorem c7_step_failure_soft_fails_witness :
    runAll [stepOk] (0 : Int) = Except.ok 1 ∧
    stepFailing.run 1 = Except.error "insufficient funds" ∧
    runSteps [stepOk, stepFailing, stepRail] (0 : Int) []
      = { state := 1, status := PayrollStatus.failed, completed := ["payroll_created"],
          errors := [{ step := "onchain_requested", error := "insufficient funds" }] } :=
  ⟨rfl, rfl,
    c7_step_failure_soft_fails [stepOk] [stepRail] stepFailing 0 1 "insufficient funds" rfl rfl⟩

/-- C8 counterexample: on a contract handle whose calls fail the way a revert
or an unreachable network fails, each treasury client operation surfaces the
raw propagated error, not a distinguishable OnchainFailure value. -/
theorem c8_no_onchain_failure_on_revert :
    requestOnchainPayment brokenContract "0xPayee" 1 "USDC"
      = Except.error (TreasuryError.generic "network unreachable") ∧
    errIsOnchainFailure (requestOnchainPayment brokenContract "0xPayee" 1 "USDC") = false ∧
    executeOnchainPayment brokenContract "0xTreasury" "0xPayee" 1 "USDC"
      = Except.error (TreasuryError.generic "execution reverted") ∧
    errIsOnchainFailure
      (executeOnchainPayment brokenContract "0xTreasury" "0xPayee" 1 "USDC") = false ∧
    getTreasuryBalance brokenContract "USDC"
      = Except.error (TreasuryError.generic "network unreachable") ∧
    errIsOnchainFailure (getTreasuryBalance brokenContract "USDC") = false :=
  ⟨rfl, rfl, rfl, rfl, rfl, rfl⟩

/-- C8 amended: the three treasury client operations propagate the underlying
error unchanged as a generic error (performing no OnchainFailure
classification, which is therefore never produced), and pass the receipt hash
or balance through on success. -/
theorem c8_errors_propagate_generic (c : TreasuryContract) (payer payee token : String)
    (amount : Int) :
    requestOnchainPayment c payee amount token
      = (c.requestPayment payee amount token).mapError TreasuryError.generic ∧
    executeOnchainPayment c payer payee amount token
      = (c.executePayment payer payee amount token).mapError TreasuryError.generic ∧
    getTreasuryBalance c token = (c.getTokenBalance token).mapError TreasuryError.generic ∧
    errIsOnchainFailure (requestOnchainPayment c payee amount token) = false ∧
    errIsOnchainFailure (executeOnchainPayment c payer payee amount token) = false ∧
    errIsOnchainFailure (getTreasuryBalance c token) = false := by
  refine ⟨?_, ?_, ?_, ?_, ?_, ?_⟩
  · cases h : c.requestPayment payee amount token <;>
      simp [requestOnchainPayment, h, Except.mapError]
  · cases h : c.executePayment payer payee amount token <;>
      simp [executeOnchainPayment, h, Except.mapError]
  · cases h : c.getTokenBalance token <;>
      simp [getTreasuryBalance, h, Except.mapError]
  · cases h : c.requestPayment payee amount token <;>
      simp [requestOnchainPayment, h, errIsOnchainFailure]
  · cases h : c.executePayment payer payee amount token <;>
      simp [executeOnchainPayment, h, errIsOnchainFailure]
  · cases h : c.getTokenBalance token <;>
      simp [getTreasuryBalance, h, errIsOnchainFailure]

/-- A row update keyed on the payment intent does not change the key. -/
theorem markConfirmed_pid (pid tx : String) (p : Payment) :
    (markConfirmed pid tx p).paymentIntentId = p.paymentIntentId := by
  unfold markConfirmed
  split <;> rfl

/-- A row update keyed on the payment intent sets the matching row
CONFIRMED_ONCHAIN. -/
theorem markConfirmed_status_of_match (pid tx : String) (p : Payment)
    (h : (p.paymentIntentId == pid) = true) :
    (markConfirmed pid tx p).status = PaymentStatus.confirmedOnchain := by
  simp [markConfirmed, h]

/-- Lookup by payment intent commutes with the row update that marks the
matching row confirmed. -/
theorem find_map_markConfirmed (pid tx : String) (l : List Payment) :
    (l.map (markConfirmed pid tx)).find? (fun q => q.paymentIntentId == pid)
      = (l.find? (fun q => q.paymentIntentId == pid)).map (markConfirmed pid tx) := by
  induction l with
  | nil => rfl
  | cons h t ih =>
    by_cases hc : (h.paymentIntentId == pid) = true
    · simp [List.find?_cons, markConfirmed_pid, hc]
    · simp [List.find?_cons, markConfirmed_pid, hc, ih]

/-- The balance increment does not change the unique-index key of a row. -/
theorem balanceKeyMatches_addToBalance (cid tok : String) (d u : Int) (b : CompanyBalance) :
    balanceKeyMatches cid tok (addToBalance d u b) = balanceKeyMatches cid tok b := rfl

/-- The upsert applies exactly one token increment to the balance read for
its key, whether or not the row already exists. -/
theorem lookupBalanceToken_upsertBalance (bs : List CompanyBalance) (cid tok : String)
    (d u : Int) :
    lookupBalanceToken (upsertBalance bs cid tok d u) cid tok
      = lookupBalanceToken bs cid tok + d := by
  induction bs with
  | nil =>
    simp [upsertBalance, lookupBalanceToken, List.find?, balanceKeyMatches]
  | cons b rest ih =>
    by_cases hb : balanceKeyMatches cid tok b = true
    · have hupsert : upsertBalance (b :: rest) cid tok d u = addToBalance d u b :: rest := by
        simp [upsertBalance, hb]
      rw [hupsert]
      have hkey : balanceKeyMatches cid tok (addToBalance d u b) = true := by
        rw [balanceKeyMatches_addToBalance]
        exact hb
      simp only [lookupBalanceToken, List.find?_cons, hkey, hb]
      simp [addToBalance]
    · have hupsert : upsertBalance (b :: rest) cid tok d u
          = b :: upsertBalance rest cid tok d u := by
        simp [upsertBalance, hb]
      have hskip : ∀ l : List CompanyBalance,
          lookupBalanceToken (b :: l) cid tok = lookupBalanceToken l cid tok := by
        intro l
        simp [lookupBalanceToken, List.find?_cons, hb]
      rw [hupsert, hskip, hskip, ih]

/-- confirmPayment on an unknown payment intent: not-found, store unchanged. -/
theorem confirmPayment_none (s : Store) (pid tx : String) (amt : Int) (tok : String)
    (hfind : findPayment s pid = none) :
    confirmPayment s pid tx amt tok = (s, Except.error ConfirmError.notFound) := by
  simp [confirmPayment, hfind]

/-- confirmPayment on a pending payment: the payment is marked confirmed, the
balance upserted by the payment amounts, and the success payload returned. -/
theorem confirmPayment_pending (s : Store) (pid tx : String) (amt : Int) (tok : String)
    (p : Payment) (hfind : findPayment s pid = some p)
    (hpending : p.status = PaymentStatus.pending) :
    confirmPayment s pid tx amt tok
      = (confirmedStore s pid tx p,
         Except.ok { companyId := p.companyId, status := PaymentStatus.confirmedOnchain,
                     txHash := tx }) := by
  simp [confirmPayment, confirmedStore, hfind, hpending]

/-- confirmPayment on an already confirmed payment: already-confirmed error
value, store unchanged (no duplicate balance mutation). -/
theorem confirmPayment_confirmed (s : Store) (pid tx : String) (amt : Int) (tok : String)
    (p : Payment) (hfind : findPayment s pid = some p)
    (hconf : p.status = PaymentStatus.confirmedOnchain) :
    confirmPayment s pid tx amt tok = (s, Except.error ConfirmError.alreadyConfirmed) := by
  simp [confirmPayment, hfind, hconf]

/-- confirmPayment on a payment in the illegal FAILED prior status:
invalid-status error, store unchanged. -/
theorem confirmPayment_failed (s : Store) (pid tx : String) (amt : Int) (tok : String)
    (p : Payment) (hfind : findPayment s pid = some p)
    (hfailed : p.status = PaymentStatus.failed) :
    confirmPayment s pid tx amt tok = (s, Except.error ConfirmError.invalidStatus) := by
  simp [confirmPayment, hfind, hfailed]

/-- After the confirming write, the lookup by payment intent returns the
marked row. -/
theorem findPayment_after_mark (s : Store) (pid tx : String)
    (p : Payment) (hfind : findPayment s pid = some p) :
    findPayment (confirmedStore s pid tx p) pid = some (markConfirmed pid tx p) := by
  show (s.payments.map (markConfirmed pid tx)).find? (fun q => q.paymentIntentId == pid)
      = some (markConfirmed pid tx p)
  rw [find_map_markConfirmed,
    show s.payments.find? (fun q => q.paymentIntentId == pid) = some p from hfind]
  rfl

/-- C2: the confirmation callback is idempotent. Delivering the same callback
twice yields two 200 responses, the second carrying the already-confirmed
marker rather than an error; the second delivery leaves the store unchanged,
so exactly one token increment is applied to the CompanyBalance of the
confirmed payment. -/
theorem c2_confirm_payment_idempotent (env : CallbackEnv) (s : Store) (req : CallbackRequest)
    (p : Payment)
    (hsec : validateCallbackSecret env req.headerSecret = true)
    (hfields : (truthyStr req.paymentIntentId && truthyStr req.token &&
      truthyNum req.amount && truthyStr req.txHash) = true)
    (hfind : findPayment s (req.paymentIntentId.getD "") = some p)
    (hpending : p.status = PaymentStatus.pending) :
    (callbackTwice env s req).1.2.status = 200 ∧
    (callbackTwice env s req).1.2.ok = true ∧
    (callbackTwice env s req).2.2.status = 200 ∧
    (callbackTwice env s req).2.2.ok = true ∧
    (callbackTwice env s req).2.2.message = some "Payment already confirmed (idempotent)" ∧
    (callbackTwice env s req).2.1 = (callbackTwice env s req).1.1 ∧
    getBalanceToken (callbackTwice env s req).1.1 p.companyId p.token
      = getBalanceToken s p.companyId p.token + p.amountToken := by
  have hp : (p.paymentIntentId == req.paymentIntentId.getD "") = true := by
    simpa using List.find?_some hfind
  have hconf1 := confirmPayment_pending s (req.paymentIntentId.getD "") (req.txHash.getD "")
    (req.amount.getD 0) (req.token.getD "") p hfind hpending
  have hfindS1 := findPayment_after_mark s
    (req.paymentIntentId.getD "") (req.txHash.getD "") p hfind
  have h1 : handleCallback env s req
      = (confirmedStore s (req.paymentIntentId.getD "") (req.txHash.getD "") p,
         { status := 200, ok := true,
               message := some "Payment confirmed and balance updated",
               companyId := some p.companyId,
               paymentIntentId := some (req.paymentIntentId.getD ""),
               paymentStatus := some PaymentStatus.confirmedOnchain,
               txHash := some (req.txHash.getD ""), balanceUpdated := true }) := by
    simp [handleCallback, handleCallbackWith, hsec, hfields, hconf1]
  have hconf2 := confirmPayment_confirmed
    (confirmedStore s (req.paymentIntentId.getD "") (req.txHash.getD "") p)
    (req.paymentIntentId.getD "")
    (req.txHash.getD "") (req.amount.getD 0) (req.token.getD "")
    (markConfirmed (req.paymentIntentId.getD "") (req.txHash.getD "") p) hfindS1
    (markConfirmed_status_of_match (req.paymentIntentId.getD "") (req.txHash.getD "") p hp)
  have h2 : handleCallback env
        (confirmedStore s (req.paymentIntentId.getD "") (req.txHash.getD "") p) req
      = (confirmedStore s (req.paymentIntentId.getD "") (req.txHash.getD "") p,
         { status := 200, ok := true,
           message := some "Payment already confirmed (idempotent)" }) := by
    simp [handleCallback, handleCallbackWith, hsec, hfields, hconf2]
  refine ⟨?_, ?_, ?_, ?_, ?_, ?_, ?_⟩
  · simp [callbackTwice, h1]
  · simp [callbackTwice, h1]
  · simp [callbackTwice, h1, h2]
  · simp [callbackTwice, h1, h2]
  · simp [callbackTwice, h1, h2]
  · simp [callbackTwice, h1, h2]
  · simp only [callbackTwice, h1]
    simp [confirmedStore, getBalanceToken, lookupBalanceToken_upsertBalance]

/-- Witness for C2 at the concrete fixture: two deliveries of the same
callback confirm once and increment the balance once. -/
theorem c2_confirm_payment_idempotent_witness :
    (callbackTwice envNoSecret storeFixture reqFixture).1.2.status = 200 ∧
    (callbackTwice envNoSecret storeFixture reqFixture).1.2.ok = true ∧
    (callbackTwice envNoSecret storeFixture reqFixture).2.2.status = 200 ∧
    (callbackTwice envNoSecret storeFixture reqFixture).2.2.ok = true ∧
    (callbackTwice envNoSecret storeFixture reqFixture).2.2.message
      = some "Payment already confirmed (idempotent)" ∧
    (callbackTwice envNoSecret storeFixture reqFixture).2.1
      = (callbackTwice envNoSecret storeFixture reqFixture).1.1 ∧
    getBalanceToken (callbackTwice envNoSecret storeFixture reqFixture).1.1
        paymentFixture.companyId paymentFixture.token
      = getBalanceToken storeFixture paymentFixture.companyId paymentFixture.token
        + paymentFixture.amountToken :=
  c2_confirm_payment_idempotent envNoSecret storeFixture reqFixture paymentFixture
    rfl rfl rfl rfl

/-- C3 as amended: the confirmation-callback responses are — 401
UNAUTHORIZED on a failing secret check; 400 INVALID_REQUEST on a missing
(falsy) required field; then, by the outcome on the referenced payment
intent: 404 PAYMENT_INTENT_NOT_FOUND when unknown, 200 with the companyId,
status and txHash on success, 200 carrying only ok and the idempotent
marker (no companyId, status or txHash) on replay, and 400 INVALID_STATUS
on an illegal prior status. -/
theorem c3_callback_response_contract (env : CallbackEnv) (s : Store) (req : CallbackRequest) :
    (validateCallbackSecret env req.headerSecret = false →
      handleCallback env s req
        = (s, { status := 401, ok := false, error := some "UNAUTHORIZED",
                message := some "Invalid callback secret" })) ∧
    (validateCallbackSecret env req.headerSecret = true →
      ((truthyStr req.paymentIntentId && truthyStr req.token &&
          truthyNum req.amount && truthyStr req.txHash) = false →
        handleCallback env s req
          = (s, { status := 400, ok := false, error := some "INVALID_REQUEST",
                  message := some "paymentIntentId, token, amount, and txHash are required" })) ∧
      ((truthyStr req.paymentIntentId && truthyStr req.token &&
          truthyNum req.amount && truthyStr req.txHash) = true →
        (findPayment s (req.paymentIntentId.getD "") = none →
          handleCallback env s req
            = (s, { status := 404, ok := false,
                    error := some "PAYMENT_INTENT_NOT_FOUND" })) ∧
        (∀ p : Payment, findPayment s (req.paymentIntentId.getD "") = some p →
          (p.status = PaymentStatus.pending →
            handleCallback env s req
              = (confirmedStore s (req.paymentIntentId.getD "") (req.txHash.getD "") p,
                 { status := 200, ok := true,
                   message := some "Payment confirmed and balance updated",
                   companyId := some p.companyId,
                   paymentIntentId := some (req.paymentIntentId.getD ""),
                   paymentStatus := some PaymentStatus.confirmedOnchain,
                   txHash := some (req.txHash.getD ""), balanceUpdated := true })) ∧
          (p.status = PaymentStatus.confirmedOnchain →
            handleCallback env s req
              = (s, { status := 200, ok := true,
                      message := some "Payment already confirmed (idempotent)" })) ∧
          (p.status = PaymentStatus.failed →
            handleCallback env s req
              = (s, { status := 400, ok := false,
                      error := some "INVALID_STATUS" }))))) := by
  refine ⟨?_, ?_⟩
  · intro hsec
    simp [handleCallback, handleCallbackWith, hsec]
  · intro hsec
    refine ⟨?_, ?_⟩
    · intro hf
      simp [handleCallback, handleCallbackWith, hsec, hf]
    · intro hf
      refine ⟨?_, ?_⟩
      · intro hn
        simp [handleCallback, handleCallbackWith, hsec, hf,
          confirmPayment_none s (req.paymentIntentId.getD "") (req.txHash.getD "")
            (req.amount.getD 0) (req.token.getD "") hn]
      · intro p hfind
        refine ⟨?_, ?_, ?_⟩
        · intro hst
          simp [handleCallback, handleCallbackWith, hsec, hf,
            confirmPayment_pending s (req.paymentIntentId.getD "") (req.txHash.getD "")
              (req.amount.getD 0) (req.token.getD "") p hfind hst]
        · intro hst
          simp [handleCallback, handleCallbackWith, hsec, hf,
            confirmPayment_confirmed s (req.paymentIntentId.getD "") (req.txHash.getD "")
              (req.amount.getD 0) (req.token.getD "") p hfind hst]
        · intro hst
          simp [handleCallback, handleCallbackWith, hsec, hf,
            confirmPayment_failed s (req.paymentIntentId.getD "") (req.txHash.getD "")
              (req.amount.getD 0) (req.token.getD "") p hfind hst]

/-- Witness for C3, exercising each branch of the response contract at
concrete fixtures. -/
theorem c3_callback_response_contract_witness :
    handleCallback envWithSecret storeFixture reqBadSecret
      = (storeFixture, { status := 401, ok := false, error := some "UNAUTHORIZED",
                         message := some "Invalid callback secret" }) ∧
    handleCallback envNoSecret storeFixture reqMissingAmount
      = (storeFixture, { status := 400, ok := false, error := some "INVALID_REQUEST",
                         message := some "paymentIntentId, token, amount, and txHash are required" }) ∧
    handleCallback envNoSecret storeFixture reqUnknown
      = (storeFixture, { status := 404, ok := false,
                         error := some "PAYMENT_INTENT_NOT_FOUND" }) ∧
    handleCallback envNoSecret storeFixture reqFixture
      = (confirmedStore storeFixture (reqFixture.paymentIntentId.getD "")
           (reqFixture.txHash.getD "") paymentFixture,
         { status := 200, ok := true,
           message := some "Payment confirmed and balance updated",
           companyId := some paymentFixture.companyId,
           paymentIntentId := some (reqFixture.paymentIntentId.getD ""),
           paymentStatus := some PaymentStatus.confirmedOnchain,
           txHash := some (reqFixture.txHash.getD ""), balanceUpdated := true }) ∧
    handleCallback envNoSecret storeConfirmed reqFixture
      = (storeConfirmed, { status := 200, ok := true,
                           message := some "Payment already confirmed (idempotent)" }) ∧
    handleCallback envNoSecret storeFailed reqFixture
      = (storeFailed, { status := 400, ok := false, error := some "INVALID_STATUS" }) :=
  ⟨(c3_callback_response_contract envWithSecret storeFixture reqBadSecret).1 rfl,
   ((c3_callback_response_contract envNoSecret storeFixture reqMissingAmount).2 rfl).1 rfl,
   (((c3_callback_response_contract envNoSecret storeFixture reqUnknown).2 rfl).2 rfl).1 rfl,
   ((((c3_callback_response_contract envNoSecret storeFixture reqFixture).2 rfl).2 rfl).2
     paymentFixture rfl).1 rfl,
   ((((c3_callback_response_contract envNoSecret storeConfirmed reqFixture).2 rfl).2 rfl).2
     paymentConfirmedFixture rfl).2.1 rfl,
   ((((c3_callback_response_contract envNoSecret storeFailed reqFixture).2 rfl).2 rfl).2
     paymentFailedFixture rfl).2.2 rfl⟩

/-- With a passing secret check, the callback route never answers 401
UNAUTHORIZED, whatever the body and store are. -/
theorem handleCallback_no_unauthorized (env : CallbackEnv) (s : Store) (req : CallbackRequest)
    (hsec : validateCallbackSecret env req.headerSecret = true) :
    (handleCallback env s req).2.status ≠ 401 ∧
    (handleCallback env s req).2.error ≠ some "UNAUTHORIZED" := by
  by_cases hf : (truthyStr req.paymentIntentId && truthyStr req.token &&
      truthyNum req.amount && truthyStr req.txHash) = true
  · rcases hc : confirmPayment s (req.paymentIntentId.getD "") (req.txHash.getD "")
        (req.amount.getD 0) (req.token.getD "") with ⟨s2, ce | r⟩
    · rcases ce <;> constructor <;>
        simp [handleCallback, handleCallbackWith, hsec, hf, hc]
    · constructor <;> simp [handleCallback, handleCallbackWith, hsec, hf, hc]
  · have hf2 : (truthyStr req.paymentIntentId && truthyStr req.token &&
        truthyNum req.amount && truthyStr req.txHash) = false := by
      simpa using hf
    constructor <;> simp [handleCallback, handleCallbackWith, hsec, hf2]

/-- C9: with X402_CALLBACK_SECRET unset the callback endpoint accepts every
request without authentication (the secret check passes and no 401 is ever
produced); conversely a 401 response is only reachable when a nonempty
secret is configured and the X-Callback-Secret header differs from it. -/
theorem c9_unauthorized_needs_secret (env : CallbackEnv) (s : Store) (req : CallbackRequest) :
    (env.callbackSecret = none →
      validateCallbackSecret env req.headerSecret = true ∧
      (handleCallback env s req).2.status ≠ 401 ∧
      (handleCallback env s req).2.error ≠ some "UNAUTHORIZED") ∧
    ((handleCallback env s req).2.status = 401 →
      ∃ secret, env.callbackSecret = some secret ∧ secret ≠ "" ∧
        req.headerSecret ≠ some secret) := by
  constructor
  · intro h
    have hv : validateCallbackSecret env req.headerSecret = true := by
      simp [validateCallbackSecret, h]
    exact ⟨hv, (handleCallback_no_unauthorized env s req hv).1,
      (handleCallback_no_unauthorized env s req hv).2⟩
  · intro h401
    rcases hc : env.callbackSecret with _ | secret
    · exact absurd h401 ((handleCallback_no_unauthorized env s req
        (by simp [validateCallbackSecret, hc])).1)
    · by_cases hse : secret = ""
      · exact absurd h401 ((handleCallback_no_unauthorized env s req
          (by simp [validateCallbackSecret, hc, hse])).1)
      · by_cases hh : req.headerSecret = some secret
        · exact absurd h401 ((handleCallback_no_unauthorized env s req
            (by simp [validateCallbackSecret, hc, hse, hh])).1)
        · exact ⟨secret, rfl, hse, hh⟩

/-- Witness for C9: with no secret configured, the fixture request passes
authentication and is not answered 401; the 401 answered to a wrong header
under a configured secret indeed exhibits a configured, differing secret. -/
theorem c9_unauthorized_needs_secret_witness :
    (validateCallbackSecret envNoSecret reqFixture.headerSecret = true ∧
     (handleCallback envNoSecret storeFixture reqFixture).2.status ≠ 401 ∧
     (handleCallback envNoSecret storeFixture reqFixture).2.error ≠ some "UNAUTHORIZED") ∧
    (∃ secret, envWithSecret.callbackSecret = some secret ∧ secret ≠ "" ∧
      reqBadSecret.headerSecret ≠ some secret) :=
  ⟨(c9_unauthorized_needs_secret envNoSecret storeFixture reqFixture).1 rfl,
   (c9_unauthorized_needs_secret envWithSecret storeFixture reqBadSecret).2 rfl⟩

/-- C10: a callback whose amount field is present but zero is falsy for the
required-field check, exactly as a missing amount is, so the route answers
400 INVALID_REQUEST with the store untouched, never invoking the
confirm-payment service — for every possible confirm function. -/
theorem c10_zero_amount_invalid_request
    (confirm : Store → String → String → Int → String → Store × Except ConfirmError ConfirmOk)
    (env : CallbackEnv) (s : Store) (req : CallbackRequest)
    (hsec : validateCallbackSecret env req.headerSecret = true)
    (hzero : req.amount = some 0) :
    handleCallbackWith confirm env s req
      = (s, { status := 400, ok := false, error := some "INVALID_REQUEST",
              message := some "paymentIntentId, token, amount, and txHash are required" }) ∧
    truthyNum req.amount = truthyNum none := by
  constructor
  · simp [handleCallbackWith, hsec, hzero, truthyNum]
  · simp [hzero, truthyNum]

/-- Witness for C10 at the concrete zero-amount fixture, with the real
confirm-payment service plugged in. -/
theorem c10_zero_amount_invalid_request_witness :
    handleCallbackWith confirmPayment envNoSecret storeFixture reqZeroAmount
      = (storeFixture, { status := 400, ok := false, error := some "INVALID_REQUEST",
                         message := some "paymentIntentId, token, amount, and txHash are required" }) ∧
    truthyNum reqZeroAmount.amount = truthyNum none :=
  c10_zero_amount_invalid_request confirmPayment envNoSecret storeFixture reqZeroAmount rfl rfl

/-- Every OutboundPayment row created for a payroll references it, so the
filter by its id keeps all of them. -/
theorem mkOutbound_filter_self (pid c : String) (items : List (String × Int)) (i : Nat) :
    (mkOutbound pid c items i).filter (fun o => o.payrollId == pid)
      = mkOutbound pid c items i := by
  induction items generalizing i with
  | nil => rfl
  | cons it rest ih =>
    rcases it with ⟨r, a⟩
    simp [mkOutbound, List.filter_cons, ih]

/-- The rows created for a payroll never show up under another payroll id. -/
theorem mkOutbound_filter_ne (pid c q : String) (items : List (String × Int)) (i : Nat)
    (h : q ≠ pid) :
    (mkOutbound pid c items i).filter (fun o => o.payrollId == q) = [] := by
  have hne : (pid == q) = false := beq_eq_false_iff_ne.mpr (Ne.symm h)
  induction items generalizing i with
  | nil => rfl
  | cons it rest ih =>
    rcases it with ⟨r, a⟩
    simp [mkOutbound, List.filter_cons, hne, ih]

/-- The amounts of the created rows are exactly the batch amounts. -/
theorem mkOutbound_amounts (pid c : String) (items : List (String × Int)) (i : Nat) :
    (mkOutbound pid c items i).map OutboundPayment.amount = items.map Prod.snd := by
  induction items generalizing i with
  | nil => rfl
  | cons it rest ih =>
    rcases it with ⟨r, a⟩
    simp [mkOutbound, ih]

/-- Creation does not change the outbound total of any other payroll. -/
theorem outboundTotal_createPayroll_ne (st : PayrollStore) (pid c : String)
    (items : List (String × Int)) (q : String) (h : q ≠ pid) :
    outboundTotal (createPayroll st pid c items) q = outboundTotal st q := by
  simp only [outboundTotal, createPayroll, List.filter_append, List.map_append,
    List.sum_append]
  rw [mkOutbound_filter_ne pid c q items 0 h]
  simp

/-- On a store holding no row of the new payroll yet, the outbound total of
the freshly created payroll is the sum of the batch amounts. -/
theorem outboundTotal_createPayroll_self (st : PayrollStore) (pid c : String)
    (items : List (String × Int)) (h : ∀ o ∈ st.outbound, o.payrollId ≠ pid) :
    outboundTotal (createPayroll st pid c items) pid = sumAmounts items := by
  have hnil : st.outbound.filter (fun o => o.payrollId == pid) = [] := by
    rw [List.filter_eq_nil_iff]
    intro o ho
    simp [h o ho]
  simp only [outboundTotal, createPayroll, List.filter_append, List.map_append,
    List.sum_append, hnil, mkOutbound_filter_self, mkOutbound_amounts]
  simp [sumAmounts]

/-- A row map that preserves payroll ids and amounts preserves the amounts
selected for every payroll id. -/
theorem filter_map_amount_preserved (l : List OutboundPayment) (q : String)
    (f : OutboundPayment → OutboundPayment)
    (hid : ∀ o, (f o).payrollId = o.payrollId)
    (hamt : ∀ o, (f o).amount = o.amount) :
    ((l.map f).filter (fun o => o.payrollId == q)).map OutboundPayment.amount
      = (l.filter (fun o => o.payrollId == q)).map OutboundPayment.amount := by
  induction l with
  | nil => rfl
  | cons o rest ih =>
    by_cases h2 : o.payrollId = q
    · simp [List.filter_cons, hid, hamt, h2, ih]
    · simp [List.filter_cons, hid, hamt, h2, ih]

/-- A status update leaves every outbound total unchanged. -/
theorem outboundTotal_setPayrollStatus (st : PayrollStore) (pid q : String)
    (ns : PayrollStatus) :
    outboundTotal (setPayrollStatus st pid ns) q = outboundTotal st q := by
  simp only [outboundTotal, setPayrollStatus]
  exact congrArg List.sum (filter_map_amount_preserved st.outbound q
    (fun o => if o.payrollId == pid then { o with status := ns } else o)
    (fun o => by by_cases h : (o.payrollId == pid) = true <;> simp [h])
    (fun o => by by_cases h : (o.payrollId == pid) = true <;> simp [h]))

/-- A status update leaves the recorded totals of all payrolls unchanged. -/
theorem setPayrollStatus_totals (st : PayrollStore) (q : String) (ns : PayrollStatus) :
    (setPayrollStatus st q ns).payrolls.map Payroll.total = st.payrolls.map Payroll.total := by
  simp only [setPayrollStatus, List.map_map]
  apply List.map_congr_left
  intro p _
  by_cases h : p.id = q <;> simp [h]

/-- C4: the aggregate invariant — every Payroll total equals the sum of the
amounts of the OutboundPayments referencing it — holds immediately after the
atomic creation of a fresh payroll, is preserved by the status updates that
are the only subsequent mutations, and no operation ever mutates a total. -/
theorem c4_payroll_total_invariant (st : PayrollStore) (pid c : String)
    (items : List (String × Int))
    (hinv : payrollTotalsOk st = true)
    (hfreshP : ∀ p ∈ st.payrolls, p.id ≠ pid)
    (hfreshO : ∀ o ∈ st.outbound, o.payrollId ≠ pid) :
    payrollTotalsOk (createPayroll st pid c items) = true ∧
    (∀ (st2 : PayrollStore) (q : String) (ns : PayrollStatus),
      payrollTotalsOk st2 = true → payrollTotalsOk (setPayrollStatus st2 q ns) = true) ∧
    (∀ (st2 : PayrollStore) (q : String) (ns : PayrollStatus),
      (setPayrollStatus st2 q ns).payrolls.map Payroll.total
        = st2.payrolls.map Payroll.total) := by
  refine ⟨?_, ?_, ?_⟩
  · rw [payrollTotalsOk, List.all_eq_true]
    intro p hp
    rw [beq_iff_eq]
    have hp2 : p ∈ st.payrolls ++
        [{ id := pid, total := sumAmounts items, currency := c,
           status := PayrollStatus.pending }] := hp
    rw [List.mem_append] at hp2
    rcases hp2 with hold | hnew
    · rw [outboundTotal_createPayroll_ne st pid c items p.id (hfreshP p hold)]
      have hmem := (List.all_eq_true.mp hinv) p hold
      simpa using hmem
    · rw [List.mem_singleton] at hnew
      subst hnew
      simp only []
      rw [outboundTotal_createPayroll_self st pid c items hfreshO]
  · intro st2 q ns hinv2
    rw [payrollTotalsOk, List.all_eq_true]
    intro p hp
    have hp2 : p ∈ st2.payrolls.map
        (fun p => if p.id == q then { p with status := ns } else p) := hp
    rw [List.mem_map] at hp2
    obtain ⟨p0, hp0, rfl⟩ := hp2
    have htot : (if p0.id == q then { p0 with status := ns } else p0).total = p0.total := by
      by_cases h : (p0.id == q) = true <;> simp [h]
    have hid : (if p0.id == q then { p0 with status := ns } else p0).id = p0.id := by
      by_cases h : (p0.id == q) = true <;> simp [h]
    rw [beq_iff_eq, htot, hid, outboundTotal_setPayrollStatus]
    have hmem := (List.all_eq_true.mp hinv2) p0 hp0
    simpa using hmem
  · intro st2 q ns
    exact setPayrollStatus_totals st2 q ns

/-- Witness for C4: a fresh two-recipient payroll created on the empty store
satisfies the invariant, which status updates preserve. -/
theorem c4_payroll_total_invariant_witness :
    payrollTotalsOk (createPayroll { payrolls := [], outbound := [] } "p1" "USD"
      [("alice", 3), ("bob", 4)]) = true ∧
    (∀ (st2 : PayrollStore) (q : String) (ns : PayrollStatus),
      payrollTotalsOk st2 = true → payrollTotalsOk (setPayrollStatus st2 q ns) = true) ∧
    (∀ (st2 : PayrollStore) (q : String) (ns : PayrollStatus),
      (setPayrollStatus st2 q ns).payrolls.map Payroll.total
        = st2.payrolls.map Payroll.total) :=
  c4_payroll_total_invariant { payrolls := [], outbound := [] } "p1" "USD"
    [("alice", 3), ("bob", 4)] rfl (by simp) (by simp)

/-- FAILED is terminal: no observation follows it. -/
theorem chainFrom_failed_nil (l : List PayrollStatus)
    (h : chainFrom PayrollStatus.failed l = true) : l = [] := by
  cases l with
  | nil => rfl
  | cons b r => cases b <;> simp [chainFrom, canTransition] at h

/-- PAID is terminal: no observation follows it. -/
theorem chainFrom_paid_nil (l : List PayrollStatus)
    (h : chainFrom PayrollStatus.paid l = true) : l = [] := by
  cases l with
  | nil => rfl
  | cons b r => cases b <;> simp [chainFrom, canTransition] at h

/-- The observations possible after RAIL_PROCESSING. -/
theorem chainFrom_rail (l : List PayrollStatus)
    (h : chainFrom PayrollStatus.railProcessing l = true) :
    l = [] ∨ l = [PayrollStatus.paid] ∨ l = [PayrollStatus.failed] := by
  cases l with
  | nil => exact Or.inl rfl
  | cons b r =>
    cases b <;> simp [chainFrom, canTransition] at h
    · have hr := chainFrom_paid_nil r h
      subst hr
      simp
    · have hr := chainFrom_failed_nil r h
      subst hr
      simp

/-- The observations possible after ONCHAIN_PAID. -/
theorem chainFrom_onchain (l : List PayrollStatus)
    (h : chainFrom PayrollStatus.onchainPaid l = true) :
    l = [] ∨ l = [PayrollStatus.railProcessing] ∨
    l = [PayrollStatus.railProcessing, PayrollStatus.paid] ∨
    l = [PayrollStatus.railProcessing, PayrollStatus.failed] ∨
    l = [PayrollStatus.failed] := by
  cases l with
  | nil => exact Or.inl rfl
  | cons b r =>
    cases b <;> simp [chainFrom, canTransition] at h
    · rcases chainFrom_rail r h with h2 | h2 | h2 <;> subst h2 <;> simp
    · have hr := chainFrom_failed_nil r h
      subst hr
      simp

/-- The observations possible after the initial PENDING. -/
theorem chainFrom_pending (l : List PayrollStatus)
    (h : chainFrom PayrollStatus.pending l = true) :
    l = [] ∨ l = [PayrollStatus.onchainPaid] ∨
    l = [PayrollStatus.onchainPaid, PayrollStatus.railProcessing] ∨
    l = [PayrollStatus.onchainPaid, PayrollStatus.railProcessing, PayrollStatus.paid] ∨
    l = [PayrollStatus.onchainPaid, PayrollStatus.railProcessing, PayrollStatus.failed] ∨
    l = [PayrollStatus.onchainPaid, PayrollStatus.failed] ∨
    l = [PayrollStatus.failed] := by
  cases l with
  | nil => exact Or.inl rfl
  | cons b r =>
    cases b <;> simp [chainFrom, canTransition] at h
    · rcases chainFrom_onchain r h with h2 | h2 | h2 | h2 | h2 <;> subst h2 <;> simp
    · have hr := chainFrom_failed_nil r h
      subst hr
      simp

/-- C5: every observed status trace of a Payroll is a take of the forward
chain PENDING, ONCHAIN_PAID, RAIL_PROCESSING, PAID, or such a proper forward
piece followed by FAILED; every legal transition strictly increases the
forward progress measure (no backward transition), and PAID and FAILED admit
no outgoing transition at all. -/
theorem c5_status_trace_monotone (t : List PayrollStatus) (h : validTrace t = true) :
    ((∃ n, t = fullChain.take n) ∨
     (∃ n, 1 ≤ n ∧ n ≤ 3 ∧ t = fullChain.take n ++ [PayrollStatus.failed])) ∧
    (∀ a b, canTransition a b = true → statusRank a < statusRank b) ∧
    (∀ b, canTransition PayrollStatus.paid b = false ∧
      canTransition PayrollStatus.failed b = false) := by
  refine ⟨?_, by decide, by decide⟩
  cases t with
  | nil => simp [validTrace] at h
  | cons a rest =>
    simp only [validTrace, Bool.and_eq_true, beq_iff_eq] at h
    obtain ⟨rfl, hchain⟩ := h
    rcases chainFrom_pending rest hchain with h2 | h2 | h2 | h2 | h2 | h2 | h2 <;> subst h2
    · exact Or.inl ⟨1, rfl⟩
    · exact Or.inl ⟨2, rfl⟩
    · exact Or.inl ⟨3, rfl⟩
    · exact Or.inl ⟨4, rfl⟩
    · exact Or.inr ⟨3, by decide, by decide, rfl⟩
    · exact Or.inr ⟨2, by decide, by decide, rfl⟩
    · exact Or.inr ⟨1, by decide, by decide, rfl⟩

/-- Witness for C5 at a concrete observed trace that fails after the on-chain
leg. -/
theorem c5_status_trace_monotone_witness :
    ((∃ n, ([PayrollStatus.pending, PayrollStatus.onchainPaid, PayrollStatus.failed]
        : List PayrollStatus) = fullChain.take n) ∨
     (∃ n, 1 ≤ n ∧ n ≤ 3 ∧
       ([PayrollStatus.pending, PayrollStatus.onchainPaid, PayrollStatus.failed]
         : List PayrollStatus) = fullChain.take n ++ [PayrollStatus.failed])) ∧
    (∀ a b, canTransition a b = true → statusRank a < statusRank b) ∧
    (∀ b, canTransition PayrollStatus.paid b = false ∧
      canTransition PayrollStatus.failed b = false) :=
  c5_status_trace_monotone
    [PayrollStatus.pending, PayrollStatus.onchainPaid, PayrollStatus.failed] rfl

/-- C3 counterexample: the claim says the idempotent-replay response carries
companyId, status and txHash, but at a concrete replay (the already-confirmed
fixture) the route answers 200 with only ok and the already-confirmed
message: companyId, paymentStatus and txHash are all absent. -/
theorem c3_replay_response_lacks_fields :
    handleCallback envNoSecret storeConfirmed reqFixture
      = (storeConfirmed, { status := 200, ok := true,
                           message := some "Payment already confirmed (idempotent)" }) ∧
    (handleCallback envNoSecret storeConfirmed reqFixture).2.companyId = none ∧
    (handleCallback envNoSecret storeConfirmed reqFixture).2.paymentStatus = none ∧
    (handleCallback envNoSecret storeConfirmed reqFixture).2.txHash = none :=
  ⟨rfl, rfl, rfl, rfl⟩
